import Mathlib

/-!
Verification of the telnet package (connection.go): a shallow embedding of the
stream demultiplexer (`processCommands`), the option negotiation engine
(`negotiateOption`), the sub-negotiation framing (`sendSB`), the built-in
option handlers, and the connection lifecycle operations (`Connect`, `Read`,
`Close`, `SetWindowSize`).

Bytes are modelled as `Nat` values (inputs of interest are < 256); the
borrowed transport is modelled by a `writeFails` flag (every transport write
returns an error iff the flag is set) together with an observation trace of
every attempted write.  Go slice indexing `data[i]` is modelled by `List.get?`
with an explicit panic outcome when the index is out of range, since Go
panics there.  Go's `map[OptionCode]*option` is modelled as a function
`Nat → Option TOption`.  Value-receiver methods (`Read`, `negotiateOption`)
receive a copy of the struct, so they are modelled as functions that do not
return an updated `Connection` to the caller; pointer-receiver methods
(`processCommands`, `Close`, `SetWindowSize`) return the updated struct.
-/

set_option maxRecDepth 100000

namespace Telnet

/-- streamState from the source: stateData, stateInIAC, stateInSB,
stateEscIAC, stateNotReady. -/
inductive StreamState
  | stateData
  | stateInIAC
  | stateInSB
  | stateEscIAC
  | stateNotReady
deriving DecidableEq, Repr

/-- Errors surfaced by the code: "telnet connection is not ready", a transport
write error, and the transport end-of-stream reported by `conn.Read`. -/
inductive TErr
  | notReady
  | ioError
  | eofErr
deriving DecidableEq, Repr

/-- The three concrete option handlers registered by `Connect`
(terminalTypeOptionHandler, negotiateAboutWindowSizeOptionHandler,
terminalSpeedOptionHandler).  Go stores them as function values; the set
reachable in this program is this closed enumeration. -/
inductive HandlerId
  | terminalType
  | naws
  | terminalSpeed
deriving DecidableEq, Repr

/-- telnetOption: weWill, peerDo, sbHandler, doHandler. -/
structure TOption where
  weWill : Bool
  peerDo : Bool
  sbHandler : Option HandlerId
  doHandler : Option HandlerId
deriving DecidableEq, Repr

/-- Connection: the net.Conn transport is replaced by the `writeFails`
behaviour flag; `options` is the Go map as a function; `termEnv` models the
process environment's TERM variable (the external collaborator read by
terminalTypeOptionHandler). -/
structure Connection where
  options : Nat → Option TOption
  state : StreamState
  winSize : List Nat
  writeFails : Bool
  termEnv : Option (List Nat)

/-- Result of one option handler invocation: the attempted transport writes
and the returned error, or a Go runtime panic (out-of-range index). -/
inductive HRes
  | ok (writes : List (List Nat)) (err : Option TErr)
  | panicked
deriving DecidableEq, Repr

/-- `conn.Write` on the raw transport: the write is attempted (recorded) and
fails iff the transport fails writes. -/
def connWriteErr (p : Connection) : Option TErr :=
  if p.writeFails then some TErr.ioError else none

/-- sendSB from the source: frame `IAC SB <option> [operation] <data> IAC SE`
and send it through the `Write` method (which checks the not-ready state
before touching the transport). -/
def sendSB (p : Connection) (opt op : Nat) (data : List Nat) : HRes :=
  let result := [255, 250, opt] ++ (if op ≠ 255 then [op] else []) ++ data ++ [255, 240]
  if p.state = StreamState.stateNotReady then
    HRes.ok [] (some TErr.notReady)
  else
    HRes.ok [result] (connWriteErr p)

/-- ASCII bytes of "115200,115200", the fixed reply of
terminalSpeedOptionHandler. -/
def terminalSpeedBytes : List Nat :=
  [49, 49, 53, 50, 48, 48, 44, 49, 49, 53, 50, 48, 48]

/-- The three option handlers.  terminalTypeOptionHandler and
terminalSpeedOptionHandler read `data[3]` (panic if absent), and reply with
operation IS (0) to operation SEND (1); negotiateAboutWindowSizeOptionHandler
sends the stored window-size buffer with operation NONE (255). -/
def runHandler : HandlerId → Connection → List Nat → HRes
  | HandlerId.terminalType, p, data =>
    match data.get? 3 with
    | none => HRes.panicked
    | some op =>
      if op = 1 then
        match p.termEnv with
        | none => HRes.ok [] none
        | some t => sendSB p 24 0 t
      else HRes.ok [] none
  | HandlerId.naws, p, _ => sendSB p 31 255 p.winSize
  | HandlerId.terminalSpeed, p, data =>
    match data.get? 3 with
    | none => HRes.panicked
    | some op =>
      if op = 1 then sendSB p 32 0 terminalSpeedBytes
      else HRes.ok [] none

/-- Result of negotiateOption: attempted transport writes, invoked handlers,
and the returned error value — or a Go runtime panic from an out-of-range
slice index. -/
inductive NegoRes
  | ok (writes : List (List Nat)) (handlers : List HandlerId) (err : Option TErr)
  | panicked (writes : List (List Nat)) (handlers : List HandlerId)
deriving DecidableEq, Repr

/-- negotiateOption from the source.  It reads `data[1]` and `data[2]`
unconditionally (panicking when the buffer is shorter), looks the option up,
and answers DO/WILL/SB per the configured flags.  The `data[1] = ...`
in-place mutations are modelled by `List.set`.  Faithful details: the
unconfigured DO and WILL branches execute `return nil` after the write,
discarding the write error; in the configured DO branch, a registered
doHandler's result overwrites the reply-write error. -/
def negotiateOption (p : Connection) (data : List Nat) : NegoRes :=
  match data.get? 1 with
  | none => NegoRes.panicked [] []
  | some receiverCommand =>
    match data.get? 2 with
    | none => NegoRes.panicked [] []
    | some receivedOptionCode =>
      if receiverCommand = 253 then -- DO
        match p.options receivedOptionCode with
        | none =>
          NegoRes.ok [data.set 1 252] [] none -- write WONT; `return nil`
        | some o =>
          let reply := data.set 1 (if o.weWill then 251 else 252)
          match o.doHandler with
          | none => NegoRes.ok [reply] [] (connWriteErr p)
          | some h =>
            match runHandler h p reply with
            | HRes.ok hw herr => NegoRes.ok ([reply] ++ hw) [h] herr
            | HRes.panicked => NegoRes.panicked [reply] [h]
      else if receiverCommand = 251 then -- WILL
        match p.options receivedOptionCode with
        | none =>
          NegoRes.ok [data.set 1 254] [] none -- write DONT; `return nil`
        | some o =>
          NegoRes.ok [data.set 1 (if o.peerDo then 253 else 254)] [] (connWriteErr p)
      else if receiverCommand = 250 then -- SB
        match p.options receivedOptionCode with
        | some o =>
          match o.sbHandler with
          | some h =>
            match runHandler h p data with
            | HRes.ok hw herr => NegoRes.ok hw [h] herr
            | HRes.panicked => NegoRes.panicked [] [h]
          | none => NegoRes.ok [] [] none
        | none => NegoRes.ok [] [] none
      else
        NegoRes.ok [] [] none

/-- The mutable state threaded through processCommands: the connection (whose
`state` field the pointer receiver mutates), the local commandBuffer, the
accumulated plain-data output, and observation traces of transport writes,
dispatches to negotiateOption, and handler invocations. -/
structure MState where
  conn : Connection
  buf : List Nat
  out : List Nat
  writes : List (List Nat)
  dispatches : List (List Nat)
  handlers : List HandlerId

/-- Outcome of processCommands: normal return, an error return, or a Go
runtime panic raised inside negotiateOption. -/
inductive PRes
  | ok (m : MState)
  | err (m : MState) (e : TErr)
  | panicked (m : MState)

/-- The per-byte loop of processCommands, translated case by case from the
source's switch on `p.state`.  Dispatch passes the connection by value (its
current state included), appends the dispatched buffer to the trace, and on
success clears the buffer and returns to stateData. -/
def processBytesAux : MState → List Nat → PRes
  | m, [] => PRes.ok m
  | m, b :: rest =>
    match m.conn.state with
    | StreamState.stateNotReady => PRes.err m TErr.notReady
    | StreamState.stateData =>
      if b = 255 then
        processBytesAux { m with conn := { m.conn with state := StreamState.stateInIAC },
                                 buf := m.buf ++ [b] } rest
      else
        processBytesAux { m with out := m.out ++ [b] } rest
    | StreamState.stateInIAC =>
      if b = 251 ∨ b = 252 ∨ b = 253 ∨ b = 254 then
        processBytesAux { m with buf := m.buf ++ [b] } rest
      else if b = 255 then
        processBytesAux { m with conn := { m.conn with state := StreamState.stateData },
                                 buf := m.buf ++ [b], out := m.out ++ [b] } rest
      else if b = 250 then
        processBytesAux { m with conn := { m.conn with state := StreamState.stateInSB },
                                 buf := m.buf ++ [b] } rest
      else
        match negotiateOption m.conn (m.buf ++ [b]) with
        | NegoRes.panicked ws hs =>
          PRes.panicked { m with buf := m.buf ++ [b], writes := m.writes ++ ws,
                                 dispatches := m.dispatches ++ [m.buf ++ [b]],
                                 handlers := m.handlers ++ hs }
        | NegoRes.ok ws hs (some e) =>
          PRes.err { m with buf := m.buf ++ [b], writes := m.writes ++ ws,
                            dispatches := m.dispatches ++ [m.buf ++ [b]],
                            handlers := m.handlers ++ hs } e
        | NegoRes.ok ws hs none =>
          processBytesAux { m with conn := { m.conn with state := StreamState.stateData },
                                   buf := [], writes := m.writes ++ ws,
                                   dispatches := m.dispatches ++ [m.buf ++ [b]],
                                   handlers := m.handlers ++ hs } rest
    | StreamState.stateInSB =>
      if b = 255 then
        processBytesAux { m with conn := { m.conn with state := StreamState.stateEscIAC },
                                 buf := m.buf ++ [b] } rest
      else
        processBytesAux { m with buf := m.buf ++ [b] } rest
    | StreamState.stateEscIAC =>
      if b = 255 then
        processBytesAux { m with conn := { m.conn with state := StreamState.stateInSB },
                                 buf := m.buf ++ [b] } rest
      else if b = 240 then
        (match negotiateOption m.conn (m.buf ++ [b]) with
        | NegoRes.panicked ws hs =>
          PRes.panicked { m with buf := m.buf ++ [b], writes := m.writes ++ ws,
                                 dispatches := m.dispatches ++ [m.buf ++ [b]],
                                 handlers := m.handlers ++ hs }
        | NegoRes.ok ws hs (some e) =>
          PRes.err { m with buf := m.buf ++ [b], writes := m.writes ++ ws,
                            dispatches := m.dispatches ++ [m.buf ++ [b]],
                            handlers := m.handlers ++ hs } e
        | NegoRes.ok ws hs none =>
          processBytesAux { m with conn := { m.conn with state := StreamState.stateData },
                                   buf := [], writes := m.writes ++ ws,
                                   dispatches := m.dispatches ++ [m.buf ++ [b]],
                                   handlers := m.handlers ++ hs } rest)
      else
        processBytesAux { m with buf := m.buf ++ [b] } rest

/-- processCommands: fresh commandBuffer, empty output and traces. -/
def processCommands (c : Connection) (input : List Nat) : PRes :=
  processBytesAux ⟨c, [], [], [], [], []⟩ input

def PRes.mOf : PRes → MState
  | PRes.ok m => m
  | PRes.err m _ => m
  | PRes.panicked m => m

def PRes.isOk : PRes → Bool
  | PRes.ok _ => true
  | _ => false

def PRes.isPanic : PRes → Bool
  | PRes.panicked _ => true
  | _ => false

def PRes.errOf : PRes → Option TErr
  | PRes.err _ e => some e
  | _ => none

def PRes.outOf (r : PRes) : List Nat := r.mOf.out

def PRes.writesOf (r : PRes) : List (List Nat) := r.mOf.writes

def PRes.dispatchesOf (r : PRes) : List (List Nat) := r.mOf.dispatches

def PRes.handlersOf (r : PRes) : List HandlerId := r.mOf.handlers

def PRes.bufOf (r : PRes) : List Nat := r.mOf.buf

def PRes.endState (r : PRes) : StreamState := r.mOf.conn.state

/-- The option table built by the eight AddOption calls in Connect, as the
resulting map: BinaryTransmission 0, Echo 1, SuppressGoAhead 3, Status 5,
TerminalType 24 (sbHandler), NegotiateAboutWindowSize 31 (doHandler),
TerminalSpeed 32 (sbHandler), RemoteFlowControl 33. -/
def connectOptions (code : Nat) : Option TOption :=
  if code = 0 then some ⟨false, false, none, none⟩
  else if code = 1 then some ⟨false, true, none, none⟩
  else if code = 3 then some ⟨true, true, none, none⟩
  else if code = 5 then some ⟨false, false, none, none⟩
  else if code = 24 then some ⟨true, true, some HandlerId.terminalType, none⟩
  else if code = 31 then some ⟨true, true, none, some HandlerId.naws⟩
  else if code = 32 then some ⟨true, true, some HandlerId.terminalSpeed, none⟩
  else if code = 33 then some ⟨false, false, none, none⟩
  else none

/-- A connection as produced by Connect, with the given winSize (Connect
itself leaves winSize nil) and a non-failing transport. -/
def connWith (ws : List Nat) : Connection :=
  { options := connectOptions
    state := StreamState.stateData
    winSize := ws
    writeFails := false
    termEnv := none }

/-- The connection Connect returns: options registered, state stateData,
winSize never initialised (nil). -/
def connectConn : Connection := connWith []

/-- Close: sets the state to stateNotReady (pointer receiver; the transport
close is external). -/
def close (c : Connection) : Connection :=
  { c with state := StreamState.stateNotReady }

/-- binary.BigEndian.PutUint16 applied to uint16(v): Go truncates the int to
16 bits and stores high byte first. -/
def putUint16BE (v : Nat) : List Nat :=
  [v % 65536 / 256, v % 256]

/-- SetWindowSize: ensures a 4-byte winSize buffer, stores width and height
big-endian, then invokes negotiateAboutWindowSizeOptionHandler (whose error
is discarded).  Returns the updated connection and the attempted transport
writes. -/
def setWindowSize (p : Connection) (width height : Nat) : Connection × List (List Nat) :=
  let p' := { p with winSize := putUint16BE width ++ putUint16BE height }
  match runHandler HandlerId.naws p' [] with
  | HRes.ok w _ => (p', w)
  | HRes.panicked => (p', [])

/-- Result of the Read method: the bytes delivered to the caller, the returned
error, the attempted transport writes, the final state of the by-value
receiver copy (discarded by Go when Read returns), and whether a runtime
panic occurred. -/
structure RRes where
  data : List Nat
  rerr : Option TErr
  writes : List (List Nat)
  copy : Connection
  panicked : Bool

/-- The retry loop of Read: each successful transport read yields one chunk;
an exhausted chunk list models `conn.Read` returning 0 bytes with an
end-of-stream error.  outputData persists across iterations; a processing
error returns the accumulated data with the error; otherwise the loop returns
as soon as the output is nonempty. -/
def connReadAux (cc : Connection) (acc : List Nat) (ws : List (List Nat)) :
    List (List Nat) → RRes
  | [] => ⟨[], some TErr.eofErr, ws, cc, false⟩
  | chunk :: rest =>
    if chunk.isEmpty then connReadAux cc acc ws rest
    else
      match processBytesAux ⟨cc, [], acc, ws, [], []⟩ chunk with
      | PRes.panicked m => ⟨[], none, m.writes, m.conn, true⟩
      | PRes.err m e => ⟨m.out, some e, m.writes, m.conn, false⟩
      | PRes.ok m =>
        if m.out.isEmpty then connReadAux m.conn m.out m.writes rest
        else ⟨m.out, none, m.writes, m.conn, false⟩

/-- Read: value receiver; fails immediately with the not-ready error when the
state is stateNotReady, otherwise runs the retry loop on a copy. -/
def connRead (c : Connection) (chunks : List (List Nat)) : RRes :=
  if c.state = StreamState.stateNotReady then ⟨[], some TErr.notReady, [], c, false⟩
  else connReadAux c [] [] chunks

/-- Go declares `func (p Connection) Read(...)`: the receiver is a copy, so
the Connection the caller holds after the call is the unmodified original. -/
def readCallerConnAfter (c : Connection) (_chunks : List (List Nat)) : Connection :=
  c

def NegoRes.writesOf : NegoRes → List (List Nat)
  | NegoRes.ok w _ _ => w
  | NegoRes.panicked w _ => w

def NegoRes.handlersOf : NegoRes → List HandlerId
  | NegoRes.ok _ h _ => h
  | NegoRes.panicked _ h => h

/-- One processing step from the stateInIAC configuration holding `[255, v]`
(escape byte plus verb) on the next byte `X`: the completed 3-byte command is
dispatched exactly once, the command buffer is cleared, and the state returns
to stateData. -/
abbrev completesCommand (v X : Nat) : Prop :=
  (processBytesAux ⟨{ connectConn with state := StreamState.stateInIAC },
      [255, v], [], [], [], []⟩ [X]).isOk = true
  ∧ (processBytesAux ⟨{ connectConn with state := StreamState.stateInIAC },
      [255, v], [], [], [], []⟩ [X]).dispatchesOf = [[255, v, X]]
  ∧ (processBytesAux ⟨{ connectConn with state := StreamState.stateInIAC },
      [255, v], [], [], [], []⟩ [X]).bufOf = []
  ∧ (processBytesAux ⟨{ connectConn with state := StreamState.stateInIAC },
      [255, v], [], [], [], []⟩ [X]).endState = StreamState.stateData

/-- Helper: in stateData, bytes other than 255 pass straight to the output
without touching the buffer, the traces or the connection. -/
theorem processBytesAux_no_iac (input : List Nat) :
    ∀ (m : MState), m.conn.state = StreamState.stateData →
      (∀ b ∈ input, b ≠ 255) →
      processBytesAux m input = PRes.ok { m with out := m.out ++ input } := by
  induction input with
  | nil => intro m _ _; simp [processBytesAux]
  | cons b rest ih =>
    intro m hs hb
    have hb0 : b ≠ 255 := hb b (by simp)
    have hbr : ∀ x ∈ rest, x ≠ 255 := fun x hx => hb x (by simp [hx])
    simp only [processBytesAux, hs, if_neg hb0]
    rw [ih { m with out := m.out ++ [b] } hs hbr]
    simp

/-- C1: dispatching a completed control command is NOT bounds-checked — the
claimed safety fails.  On input `IAC` followed by a byte that is not a verb,
not IAC and not SB (here 0, and also the NOP command byte 241), the 2-byte
pending buffer is dispatched, negotiateOption reads `data[2]`, and the
program hits an out-of-range index (a Go runtime panic). -/
theorem short_command_dispatch_panics :
    (processCommands connectConn [255, 0]).isPanic = true
    ∧ (processCommands connectConn [255, 0]).dispatchesOf = [[255, 0]]
    ∧ (processCommands connectConn [255, 0]).writesOf = []
    ∧ (processCommands connectConn [255, 241]).isPanic = true := by
  decide

/-- C2 counterexample: in stateInIAC after the verb WILL has been consumed,
the next byte X = 255 (IAC) is NOT taken as an option code: no command is
dispatched (the byte is emitted as a literal 0xFF instead), refuting the
claim's "every possible next byte X (any value 0–255)". -/
theorem inIAC_iac_after_verb_not_dispatched :
    (processCommands connectConn [255, 251, 255]).dispatchesOf = []
    ∧ (processCommands connectConn [255, 251, 255]).outOf = [255]
    ∧ (processCommands connectConn [255, 251, 255]).endState = StreamState.stateData := by
  decide

/-- C2 (amended): in the stateInIAC configuration after a verb byte (WILL,
WONT, DO or DONT), every next byte X that is not itself SB, a verb, or IAC
(i.e. X < 250) is taken as the option code completing the 3-byte command
`IAC <verb> X`; the command is dispatched exactly once, the pending buffer is
cleared, and the state returns to stateData. -/
theorem inIAC_option_code_completes_command :
    ∀ X < 250,
      completesCommand 251 X ∧ completesCommand 252 X ∧
        completesCommand 253 X ∧ completesCommand 254 X := by
  decide

/-- C2 witness: the amended theorem applied at the concrete option-code
byte 1 (Echo). -/
theorem inIAC_option_code_completes_command_witness :
    1 < 250 ∧
      (completesCommand 251 1 ∧ completesCommand 252 1 ∧
        completesCommand 253 1 ∧ completesCommand 254 1) :=
  ⟨by decide, inIAC_option_code_completes_command 1 (by decide)⟩

/-- C4: a doubled IAC IAC seen in stateData contributes exactly one literal
0xFF byte to the plain-data output and returns the machine to stateData (for
any configuration in stateData, with no writes, dispatches or handler calls);
the spec's example `[72, 255, 255, 116, 101, 108]` decodes to
`[72, 255, 116, 101, 108]`. -/
theorem iac_iac_escape_decodes_literal :
    (∀ (m : MState) (rest : List Nat), m.conn.state = StreamState.stateData →
        processBytesAux m (255 :: 255 :: rest) =
          processBytesAux { m with buf := m.buf ++ [255, 255], out := m.out ++ [255] } rest)
    ∧ (processCommands connectConn [72, 255, 255, 116, 101, 108]).outOf
        = [72, 255, 116, 101, 108]
    ∧ (processCommands connectConn [72, 255, 255, 116, 101, 108]).isOk = true
    ∧ (processCommands connectConn [72, 255, 255, 116, 101, 108]).writesOf = []
    ∧ (processCommands connectConn [72, 255, 255, 116, 101, 108]).endState
        = StreamState.stateData := by
  refine ⟨?_, by decide, by decide, by decide, by decide⟩
  intro m rest h
  obtain ⟨cc, buf, out, ws, ds, hs⟩ := m
  obtain ⟨o, s, w, f, t⟩ := cc
  have hs2 : s = StreamState.stateData := h
  subst hs2
  simp [processBytesAux, List.append_assoc]

/-- C4 witness: the escape step applied at the concrete configuration of a
fresh processCommands call on connectConn. -/
theorem iac_iac_escape_decodes_literal_witness :
    (⟨connectConn, [], [], [], [], []⟩ : MState).conn.state = StreamState.stateData
    ∧ processBytesAux ⟨connectConn, [], [], [], [], []⟩ [255, 255] =
        processBytesAux ⟨connectConn, [255, 255], [255], [], [], []⟩ [] :=
  ⟨rfl, iac_iac_escape_decodes_literal.1 ⟨connectConn, [], [], [], [], []⟩ [] rfl⟩

/-- C5: any input with no IAC byte processed from stateData passes through
byte-for-byte: the output equals the input, the connection (state included)
is unchanged, and there are no transport writes, no dispatches and no handler
invocations. -/
theorem plain_passthrough (c : Connection) (input : List Nat)
    (hst : c.state = StreamState.stateData) (hb : ∀ b ∈ input, b ≠ 255) :
    processCommands c input = PRes.ok ⟨c, [], input, [], [], []⟩ := by
  have h := processBytesAux_no_iac input ⟨c, [], [], [], [], []⟩ hst hb
  simpa [processCommands] using h

/-- C5 witness: the pass-through theorem applied to connectConn on the IAC-free
input `[104, 105]`. -/
theorem plain_passthrough_witness :
    (connectConn.state = StreamState.stateData ∧ ∀ b ∈ [104, 105], b ≠ 255)
    ∧ processCommands connectConn [104, 105] =
        PRes.ok ⟨connectConn, [], [104, 105], [], [], []⟩ :=
  ⟨⟨rfl, by decide⟩, plain_passthrough connectConn [104, 105] rfl (by decide)⟩

/-- C3: the negotiation engine's reply policy on 3-byte commands, for the
option table registered by Connect.  DO X with X unconfigured: exactly the one
write `IAC WONT X` and no handler invocation; DO X configured: exactly one
write of `IAC WILL X` when weWill, otherwise exactly one `IAC WONT X`;
WILL X configured with peerDo: exactly the one write `IAC DO X`; WILL X
unconfigured or with peerDo false: exactly the one write `IAC DONT X`.
The final conjunct links reception: every byte X < 250 arriving after
`IAC DO` / `IAC WILL` in stateData dispatches exactly that 3-byte command. -/
theorem negotiation_reply_per_option_policy :
    (∀ X ≤ 255, connectOptions X = none →
        negotiateOption connectConn [255, 253, X] = NegoRes.ok [[255, 252, X]] [] none)
    ∧ (∀ X ≤ 255, ∀ o : TOption, connectOptions X = some o →
        (negotiateOption connectConn [255, 253, X]).writesOf.count [255, 251, X]
            = (if o.weWill then 1 else 0)
        ∧ (negotiateOption connectConn [255, 253, X]).writesOf.count [255, 252, X]
            = (if o.weWill then 0 else 1))
    ∧ (∀ X ≤ 255, ∀ o : TOption, connectOptions X = some o → o.peerDo = true →
        negotiateOption connectConn [255, 251, X] = NegoRes.ok [[255, 253, X]] [] none)
    ∧ (∀ X ≤ 255,
        (connectOptions X = none ∨ ∃ o : TOption, connectOptions X = some o ∧ o.peerDo = false) →
        negotiateOption connectConn [255, 251, X] = NegoRes.ok [[255, 254, X]] [] none)
    ∧ (∀ X < 250,
        (processCommands connectConn [255, 253, X]).dispatchesOf = [[255, 253, X]]
        ∧ (processCommands connectConn [255, 251, X]).dispatchesOf = [[255, 251, X]]) := by
  refine ⟨?_, ?_, ?_, ?_, by decide⟩
  · intro X _ h
    simp [negotiateOption, connectConn, connWith, h]
  · intro X _ o ho
    unfold connectOptions at ho
    split_ifs at ho with h0 h1 h3 h5 h24 h31 h32 h33
    · subst h0; injection ho with ho2; subst ho2; decide
    · subst h1; injection ho with ho2; subst ho2; decide
    · subst h3; injection ho with ho2; subst ho2; decide
    · subst h5; injection ho with ho2; subst ho2; decide
    · subst h24; injection ho with ho2; subst ho2; decide
    · subst h31; injection ho with ho2; subst ho2; decide
    · subst h32; injection ho with ho2; subst ho2; decide
    · subst h33; injection ho with ho2; subst ho2; decide
  · intro X _ o ho hpd
    unfold connectOptions at ho
    split_ifs at ho with h0 h1 h3 h5 h24 h31 h32 h33
    · subst h0; injection ho with ho2; subst ho2; revert hpd; decide
    · subst h1; injection ho with ho2; subst ho2; revert hpd; decide
    · subst h3; injection ho with ho2; subst ho2; revert hpd; decide
    · subst h5; injection ho with ho2; subst ho2; revert hpd; decide
    · subst h24; injection ho with ho2; subst ho2; revert hpd; decide
    · subst h31; injection ho with ho2; subst ho2; revert hpd; decide
    · subst h32; injection ho with ho2; subst ho2; revert hpd; decide
    · subst h33; injection ho with ho2; subst ho2; revert hpd; decide
  · intro X _ h
    rcases h with h | ⟨o, ho, hpd⟩
    · simp [negotiateOption, connectConn, connWith, h]
    · unfold connectOptions at ho
      split_ifs at ho with h0 h1 h3 h5 h24 h31 h32 h33
      · subst h0; injection ho with ho2; subst ho2; revert hpd; decide
      · subst h1; injection ho with ho2; subst ho2; revert hpd; decide
      · subst h3; injection ho with ho2; subst ho2; revert hpd; decide
      · subst h5; injection ho with ho2; subst ho2; revert hpd; decide
      · subst h24; injection ho with ho2; subst ho2; revert hpd; decide
      · subst h31; injection ho with ho2; subst ho2; revert hpd; decide
      · subst h32; injection ho with ho2; subst ho2; revert hpd; decide
      · subst h33; injection ho with ho2; subst ho2; revert hpd; decide

/-- C3 witness: the unconfigured-DO clause applied at the concrete option
code 99. -/
theorem negotiation_reply_per_option_policy_witness :
    (99 ≤ 255 ∧ connectOptions 99 = none)
    ∧ negotiateOption connectConn [255, 253, 99] = NegoRes.ok [[255, 252, 99]] [] none :=
  ⟨⟨by decide, by decide⟩,
    negotiation_reply_per_option_policy.1 99 (by decide) (by decide)⟩

/-- C6: SetWindowSize(80, 24) stores [0, 80, 0, 24] and sends exactly
`IAC SB 31 0 80 0 24 IAC SE`; in general, for any prior winSize and any
width and height below 2^16, the stored buffer is the two big-endian 16-bit
encodings and the single frame sent is IAC SB 31 followed by those four bytes
and IAC SE, with no operation byte. -/
theorem setWindowSize_naws_frame :
    ((setWindowSize connectConn 80 24).1.winSize = [0, 80, 0, 24]
      ∧ (setWindowSize connectConn 80 24).2 = [[255, 250, 31, 0, 80, 0, 24, 255, 240]])
    ∧ ∀ (ws : List Nat) (w h : Nat), w < 65536 → h < 65536 →
        (setWindowSize (connWith ws) w h).1.winSize
            = [w / 256, w % 256, h / 256, h % 256]
        ∧ (setWindowSize (connWith ws) w h).2
            = [[255, 250, 31] ++ [w / 256, w % 256, h / 256, h % 256] ++ [255, 240]] := by
  refine ⟨by decide, ?_⟩
  intro ws w h hw hh
  constructor
  · simp [setWindowSize, runHandler, sendSB, putUint16BE, connWith,
      Nat.mod_eq_of_lt hw, Nat.mod_eq_of_lt hh]
  · simp [setWindowSize, runHandler, sendSB, putUint16BE, connWith, connWriteErr,
      Nat.mod_eq_of_lt hw, Nat.mod_eq_of_lt hh]

/-- C6 witness: the general clause applied at width 80, height 24 over the
Connect-produced connection. -/
theorem setWindowSize_naws_frame_witness :
    (80 < 65536 ∧ 24 < 65536)
    ∧ ((setWindowSize (connWith []) 80 24).1.winSize = [0, 80, 0, 24]
      ∧ (setWindowSize (connWith []) 80 24).2
          = [[255, 250, 31] ++ [0, 80, 0, 24] ++ [255, 240]]) :=
  ⟨⟨by decide, by decide⟩,
    setWindowSize_naws_frame.2 [] 80 24 (by decide) (by decide)⟩

/-- C7: a failing reply write is NOT always surfaced.  With a transport whose
writes fail, the chunk `IAC DO 99` (unconfigured option) followed by plain
data: the reply write `IAC WONT 99` fails, yet negotiateOption returns nil
(the `return nil` in the unconfigured branch discards the error), processing
continues, and Read reports no error.  By contrast, the configured-WILL path
(`IAC WILL 1`) does abort and surface the error, so the discard is specific
to the branches the claim names. -/
theorem unconfigured_reply_write_error_discarded :
    ((processCommands { connectConn with writeFails := true } [255, 253, 99, 72]).isOk = true
      ∧ (processCommands { connectConn with writeFails := true } [255, 253, 99, 72]).errOf = none
      ∧ (processCommands { connectConn with writeFails := true } [255, 253, 99, 72]).outOf = [72]
      ∧ (processCommands { connectConn with writeFails := true } [255, 253, 99, 72]).writesOf
          = [[255, 252, 99]])
    ∧ ((connRead { connectConn with writeFails := true } [[255, 253, 99, 72]]).data = [72]
      ∧ (connRead { connectConn with writeFails := true } [[255, 253, 99, 72]]).rerr = none)
    ∧ ((processCommands { connectConn with writeFails := true } [255, 251, 1, 72]).errOf
          = some TErr.ioError
      ∧ (processCommands { connectConn with writeFails := true } [255, 251, 1, 72]).outOf = []
      ∧ (connRead { connectConn with writeFails := true } [[72, 255, 251, 1]]).data = [72]
      ∧ (connRead { connectConn with writeFails := true } [[72, 255, 251, 1]]).rerr
          = some TErr.ioError) := by
  decide

/-- C8 counterexample: invoking the byte-processing logic in the not-ready
state on an EMPTY chunk does not fail — the per-byte loop never runs, so
processCommands returns nil instead of the claimed not-ready error. -/
theorem notReady_empty_input_no_error :
    (processCommands (close connectConn) []).isOk = true
    ∧ (processCommands (close connectConn) []).errOf = none := by
  decide

/-- C8 (amended): after Close, the application-facing read always fails with
the not-ready error and returns no bytes, for any prior state and any
transport chunks; and processing any NONEMPTY chunk in the not-ready state
fails at the first byte with the not-ready error, consuming no input,
emitting no plain data and performing no transport writes (an empty chunk
returns success while still consuming, emitting and writing nothing). -/
theorem notReady_rejects_processing :
    (∀ (c : Connection) (chunks : List (List Nat)),
        connRead (close c) chunks = ⟨[], some TErr.notReady, [], close c, false⟩)
    ∧ (∀ (c : Connection) (b : Nat) (rest : List Nat),
        c.state = StreamState.stateNotReady →
        processCommands c (b :: rest) = PRes.err ⟨c, [], [], [], [], []⟩ TErr.notReady) := by
  constructor
  · intro c chunks
    simp [connRead, close]
  · intro c b rest h
    simp [processCommands, processBytesAux, h]

/-- C8 witness: the amended theorem's processing clause applied to the closed
connection on the nonempty chunk [72]. -/
theorem notReady_rejects_processing_witness :
    (close connectConn).state = StreamState.stateNotReady
    ∧ processCommands (close connectConn) [72]
        = PRes.err ⟨close connectConn, [], [], [], [], []⟩ TErr.notReady :=
  ⟨rfl, notReady_rejects_processing.2 (close connectConn) 72 [] rfl⟩

/-- C9: the claimed 4-byte window-size invariant fails.  Connect leaves
winSize uninitialised (length 0, not 4), and a peer's `IAC DO 31` arriving
before any SetWindowSize call makes the NAWS post-acceptance handler send the
frame `IAC SB 31 IAC SE` with 0 payload bytes instead of 4 — contradicting
the code's own comment `IAC SB NAWS <16-bit value> <16-bit value> IAC SE`. -/
theorem winSize_uninitialized_naws_payload_empty :
    connectConn.winSize = []
    ∧ (processCommands connectConn [255, 253, 31]).writesOf
        = [[255, 251, 31], [255, 250, 31, 255, 240]]
    ∧ (processCommands connectConn [255, 253, 31]).handlersOf = [HandlerId.naws] := by
  decide

/-- C10: Read's value receiver leaves the caller's Connection unchanged for
every input, so demultiplexer transitions made while processing a chunk are
discarded: reading the lone chunk [255] ends with the receiver COPY in
stateInIAC yet delivers no data and persists nothing; a second call on the
stored connection then re-interprets [253, 1] from stateData as plain data
with no negotiation write, whereas the same bytes arriving unsplit in one
call ([255, 253, 1]) are interpreted as IAC DO Echo and answered with
IAC WONT Echo. -/
theorem read_value_receiver_discards_state :
    (∀ (c : Connection) (chunks : List (List Nat)), readCallerConnAfter c chunks = c)
    ∧ (connRead connectConn [[255]]).copy.state = StreamState.stateInIAC
    ∧ (connRead connectConn [[255]]).data = []
    ∧ (connRead connectConn [[253, 1]]).data = [253, 1]
    ∧ (connRead connectConn [[253, 1]]).writes = []
    ∧ (connRead connectConn [[255, 253, 1]]).data = []
    ∧ (connRead connectConn [[255, 253, 1]]).writes = [[255, 252, 1]] :=
  ⟨fun _ _ => rfl, by decide, by decide, by decide, by decide, by decide, by decide⟩

end Telnet
